import Mathlib

/-!
Verification of the LLM-gateway backend: the sequential two-stage chain
endpoint, its request validation, rate limiting and response envelopes.
The definitions below are shallow embeddings of the JavaScript source
(routes/api.js, middleware/validation.js, middleware/rateLimit.js,
server index.js).
-/

namespace Gateway

/-- JavaScript truthiness of a possibly-absent string value
(`undefined` and the empty string are falsy). -/
def truthy : Option String → Bool
  | some s => !(s == "")
  | none => false

/-- JavaScript `a || b` on possibly-absent string values. -/
def jsOr (a b : Option String) : Option String := if truthy a then a else b

/-- The JSON body a vendor returns on a 2xx response: the handler reads
`data.output || data.result`. -/
structure VendorData where
  output : Option String
  result : Option String
deriving DecidableEq

/-- Outcome of one `axios.post` call: resolves on 2xx, rejects with
`error.response` on a vendor HTTP error, rejects without a response on a
network failure or timeout. -/
inductive AxiosOutcome where
  | ok (data : VendorData)
  | httpError (status : Nat) (data : String)
  | netError (msg : String)
deriving DecidableEq

/-- `res.data.output || res.data.result`, as in the chain handler. -/
def extractOutput (d : VendorData) : Option String := jsOr d.output d.result

/-- The value caught by the chain handler's catch block: either an error
carrying `error.response` (status and data) or one without. -/
inductive ChainErr where
  | withResponse (status : Nat) (data : String)
  | noResponse (msg : String)
deriving DecidableEq

/-- One stage of the chain: await the vendor call and extract the text.
When the vendor resolves 2xx but neither `output` nor `result` is a usable
string, the subsequent `.length` access throws a TypeError, which the catch
block receives with no `error.response` attached. -/
def callStage (adapter : String → AxiosOutcome) (prompt : String) :
    Except ChainErr String :=
  match adapter prompt with
  | .ok d =>
      match extractOutput d with
      | some s => .ok s
      | none => .error (.noResponse ("TypeError"))
  | .httpError st data => .error (.withResponse st data)
  | .netError m => .error (.noResponse m)

/-- The `metadata` object the handlers attach to their JSON bodies. -/
structure Metadata where
  processingTime : Nat
  timestamp : String
deriving DecidableEq

/-- JSON body of a `/chain` response (absent fields are `none`). -/
structure ChainBody where
  output : Option String
  chainScira : Option String
  chainDeepseek : Option String
  error : Option String
  details : Option String
  metadata : Option Metadata
deriving DecidableEq

/-- An HTTP response: status code plus JSON body. -/
structure HttpResponse where
  status : Nat
  body : ChainBody
deriving DecidableEq

/-- The chain handler's catch block: with `error.response`, it answers with
the vendor's status and data; otherwise a generic 500. -/
def errResponse : ChainErr → Nat → String → HttpResponse
  | .withResponse st data, t, ts =>
      ⟨st, ⟨none, none, none, some ("API service error"), some data, some ⟨t, ts⟩⟩⟩
  | .noResponse _, t, ts =>
      ⟨500, ⟨none, none, none, some ("Chaining failed. Please check logs."), none,
        some ⟨t, ts⟩⟩⟩

/-- The `/chain` handler: call Scira with the input, then DeepSeek with
Scira's output, answering 200 with both stage outputs; any thrown error
short-circuits into the catch block. The second component counts how many
times the DeepSeek adapter was invoked. -/
def chainHandler (scira deepseek : String → AxiosOutcome) (input : String)
    (totalTime : Nat) (ts : String) : HttpResponse × Nat :=
  match callStage scira input with
  | .error e => (errResponse e totalTime ts, 0)
  | .ok s1 =>
      match callStage deepseek s1 with
      | .error e => (errResponse e totalTime ts, 1)
      | .ok s2 =>
          (⟨200, ⟨some s2, some s1, some s2, none, none, some ⟨totalTime, ts⟩⟩⟩, 1)

/-- One field-level validation error, as produced from a Joi detail. -/
structure FieldError where
  field : String
  message : String
deriving DecidableEq

/-- A raw request body for the AI endpoints: the known `input` field plus
any unknown fields (Joi strips those with `stripUnknown: true`). -/
structure RawBody where
  input : Option String
  extra : List (String × String)
deriving DecidableEq

/-- The Joi schema for the AI endpoints: `input` a required string of
1 to 10000 characters; unknown fields are stripped on success. -/
def validateInputSchema (b : RawBody) : Except (List FieldError) RawBody :=
  match b.input with
  | none => .error [⟨"input", "Input is required"⟩]
  | some s =>
      if s.length = 0 then .error [⟨"input", "Input cannot be empty"⟩]
      else if 10000 < s.length then
        .error [⟨"input", "Input cannot exceed 10,000 characters"⟩]
      else .ok ⟨some s, []⟩

/-- JSON body of a validation rejection: the middleware answers
`res.status(400).json(error, details)` with no metadata object. -/
structure ValResponse where
  status : Nat
  error : String
  details : List FieldError
  metadata : Option Metadata
deriving DecidableEq

/-- The 400 response built by the validation middleware. -/
def valReject (errs : List FieldError) : ValResponse :=
  ⟨400, "Validation failed", errs, none⟩

/-- Result of running the validation middleware: either an immediate 400
response, or control passed onward with the normalized body. -/
inductive MwResult where
  | reject (resp : ValResponse)
  | proceed (body : RawBody)
deriving DecidableEq

/-- The validation middleware: on schema failure respond 400 and stop; on
success replace `req.body` with the stripped value and call `next()`. -/
def validateMw (b : RawBody) : MwResult :=
  match validateInputSchema b with
  | .error ds => .reject (valReject ds)
  | .ok v => .proceed v

/-- The `/chain` route: validation middleware then the handler. The two
trailing counts are how many times the Scira and DeepSeek adapters ran. -/
def chainRoute (scira deepseek : String → AxiosOutcome) (b : RawBody)
    (totalTime : Nat) (ts : String) : (ValResponse ⊕ HttpResponse) × Nat × Nat :=
  match validateMw b with
  | .reject r => (Sum.inl r, 0, 0)
  | .proceed v =>
      let hr := chainHandler scira deepseek (v.input.getD "") totalTime ts
      (Sum.inr hr.1, 1, hr.2)

/-- Configuration of one express-rate-limit instance, as constructed in the
source: window length, per-window maximum, rejection message. -/
structure LimiterConfig where
  windowMs : Nat
  max : Nat
  message : String
deriving DecidableEq

/-- General limiter: 100 requests per 15-minute window. -/
def generalLimiter : LimiterConfig :=
  ⟨15 * 60 * 1000, 100, "Too many requests from this IP, please try again later."⟩

/-- AI-endpoint limiter: 30 requests per 15-minute window. -/
def aiLimiter : LimiterConfig :=
  ⟨15 * 60 * 1000, 30, "Too many AI requests from this IP, please try again later."⟩

/-- Chain-endpoint limiter: 10 requests per 15-minute window. -/
def chainLimiter : LimiterConfig :=
  ⟨15 * 60 * 1000, 10, "Too many chain requests from this IP, please try again later."⟩

/-- Development limiter: 1000 requests per 15-minute window. -/
def devLimiter : LimiterConfig :=
  ⟨15 * 60 * 1000, 1000, "Development rate limit exceeded."⟩

/-- Auth limiter (server index.js): 5 requests per 15-minute window. -/
def authLimiter : LimiterConfig :=
  ⟨15 * 60 * 1000, 5, "Too many authentication attempts, please try again later."⟩

/-- The record returned by `getRateLimiters`. -/
structure RateLimiters where
  general : LimiterConfig
  ai : LimiterConfig
  chain : LimiterConfig
deriving DecidableEq

/-- `getRateLimiters`: in development mode every tier gets the lenient
development limiter; otherwise each tier gets its own limiter. -/
def getRateLimiters (nodeEnv : String) : RateLimiters :=
  if nodeEnv = "development" then ⟨devLimiter, devLimiter, devLimiter⟩
  else ⟨generalLimiter, aiLimiter, chainLimiter⟩

/-- Per-key limiter state: the count within the current window and the
instant the window opened. -/
structure RateLimitState where
  count : Nat
  windowStart : Nat
deriving DecidableEq

/-- State of a key first seen at time `t`: counter 0, window open at `t`. -/
def freshState (t : Nat) : RateLimitState := ⟨0, t⟩

/-- Modelled from the spec: the fixed-window reset of the express-rate-limit
library (the library body is not part of this repository; only its
configuration is). When the window has elapsed at observation time `t`, the
counter and window reset; otherwise the state is unchanged. -/
def resetAt (cfg : LimiterConfig) (s : RateLimitState) (t : Nat) : RateLimitState :=
  if s.windowStart + cfg.windowMs ≤ t then freshState t else s

/-- Modelled from the spec: one admission check of the express-rate-limit
library. After any window reset, a call that would exceed the maximum is
rejected without incrementing; otherwise it is admitted and the counter
increments. -/
def limiterAdmit (cfg : LimiterConfig) (s : RateLimitState) (t : Nat) :
    Bool × RateLimitState :=
  let s1 := resetAt cfg s t
  if cfg.max ≤ s1.count then (false, s1)
  else (true, ⟨s1.count + 1, s1.windowStart⟩)

/-- Run a sequence of admission checks at the given times, collecting the
admit/reject decisions. -/
def runCalls (cfg : LimiterConfig) (s : RateLimitState) :
    List Nat → List Bool × RateLimitState
  | [] => ([], s)
  | t :: rest =>
      let r1 := limiterAdmit cfg s t
      let r2 := runCalls cfg r1.2 rest
      (r1.1 :: r2.1, r2.2)

/-- JSON body of a rate-limit rejection: the configured handlers answer
`res.status(429).json(error, retryAfter)` with no metadata object. -/
structure RlResponse where
  status : Nat
  error : String
  retryAfter : String
  metadata : Option Metadata
deriving DecidableEq

/-- The 429 response built by a limiter's handler. -/
def rateLimit429 (cfg : LimiterConfig) : RlResponse :=
  ⟨429, cfg.message, "15 minutes", none⟩

/-- Password rule: length between 6 and 128. -/
def lengthOK (p : String) : Bool :=
  decide (6 ≤ p.length) && decide (p.length ≤ 128)

/-- Password rule: at least one lowercase letter. -/
def hasLower (p : String) : Bool :=
  p.toList.any fun c => decide ('a' ≤ c) && decide (c ≤ 'z')

/-- Password rule: at least one uppercase letter. -/
def hasUpper (p : String) : Bool :=
  p.toList.any fun c => decide ('A' ≤ c) && decide (c ≤ 'Z')

/-- Password rule: at least one digit. -/
def hasNumber (p : String) : Bool :=
  p.toList.any fun c => decide ('0' ≤ c) && decide (c ≤ '9')

/-- The special characters accepted by the password checker's regex. -/
def specialChars : List Char :=
  ['!', '@', '#', '$', '%', '^', '&', '*', '(', ')', ',', '.', '?', '"',
   ':', '\x7b', '|', '<', '>', '\x7d']

/-- Password rule: at least one special character. -/
def hasSpecial (p : String) : Bool :=
  p.toList.any fun c => specialChars.contains c

/-- Result of `validatePasswordStrength`. -/
structure PasswordStrength where
  isValid : Bool
  errors : List String
  strength : Nat
deriving DecidableEq

/-- The five checks of `validatePasswordStrength`, in declaration order. -/
def pwChecks (p : String) : List Bool :=
  [lengthOK p, hasLower p, hasUpper p, hasNumber p, hasSpecial p]

/-- `validatePasswordStrength` from server index.js: collects a message per
violated rule, is valid when every check holds, and scores the number of
satisfied checks. -/
def validatePasswordStrength (p : String) : PasswordStrength :=
  let errors :=
    (if lengthOK p then [] else ["Password must be between 6 and 128 characters"]) ++
    (if hasLower p then [] else ["Password must contain at least one lowercase letter"]) ++
    (if hasUpper p then [] else ["Password must contain at least one uppercase letter"]) ++
    (if hasNumber p then [] else ["Password must contain at least one number"]) ++
    (if hasSpecial p then []
     else ["Password must contain at least one special character (!@#$%^&*(),.?\":\x7b\x7d|<>)"])
  ⟨(pwChecks p).all id, errors, ((pwChecks p).filter id).length⟩

/-- Outcome of the OpenAI-SDK call in the single-provider DeepSeek route:
either it resolves with (possibly absent) message content, or it throws. -/
inductive SdkOutcome where
  | ok (content : Option String)
  | thrown (msg : String)
deriving DecidableEq

/-- JSON body of a single-provider response. -/
structure SingleResponse where
  status : Nat
  output : Option String
  error : Option String
  details : Option String
  metadata : Option Metadata
deriving DecidableEq

/-- The single-provider DeepSeek handler (routes/api.js): on success it
answers 200 with `content || 'No response'`; on a thrown error, 500. -/
def deepseekHandler (o : SdkOutcome) (t : Nat) (ts : String) : SingleResponse :=
  match o with
  | .ok content => ⟨200, jsOr content (some ("No response")), none, none, some ⟨t, ts⟩⟩
  | .thrown m => ⟨500, none, some ("DeepSeek API call failed"), some m, some ⟨t, ts⟩⟩

/-- Whether `needle` occurs as a contiguous substring of `hay`. -/
def occursIn (needle hay : String) : Bool :=
  (List.range (hay.toList.length + 1)).any fun i =>
    needle.toList.isPrefixOf (hay.toList.drop i)

/-- A Scira adapter that fails with a vendor HTTP error. -/
def sciraDown : String → AxiosOutcome :=
  fun _ => .httpError 503 ("upstream unavailable")

/-- A stub adapter that always answers with output X. -/
def stubX : String → AxiosOutcome := fun _ => .ok ⟨some ("X"), none⟩

/-- A stub adapter that always answers with output Y. -/
def stubY : String → AxiosOutcome := fun _ => .ok ⟨some ("Y"), none⟩

/-- A stub adapter that echoes its prompt. -/
def stubEcho : String → AxiosOutcome := fun s => .ok ⟨some s, none⟩

/-- Claim C10: with NODE_ENV equal to development, getRateLimiters returns
the development limiter (max 1000 per 15-minute window) for all three
tiers, so the per-tier maxima 100, 30 and 10 are not enforced there. -/
theorem dev_limiter_override :
    getRateLimiters ("development") = ⟨devLimiter, devLimiter, devLimiter⟩ ∧
    devLimiter.max = 1000 ∧ devLimiter.windowMs = 15 * 60 * 1000 ∧
    devLimiter.max ≠ generalLimiter.max ∧ devLimiter.max ≠ aiLimiter.max ∧
    devLimiter.max ≠ chainLimiter.max := by
  decide

/-- Claim C8: the password checker is a pure function whose validity is the
conjunction of the five rules, whose strength score counts the satisfied
rules (never above 5), with the two concrete examples: abc is invalid with
messages for length, uppercase, number and special character, and the
sample strong password is valid with score 5. -/
theorem password_strength_spec :
    (∀ p, (validatePasswordStrength p).isValid =
      (lengthOK p && hasLower p && hasUpper p && hasNumber p && hasSpecial p)) ∧
    (∀ p, (validatePasswordStrength p).strength =
      (if lengthOK p then 1 else 0) + (if hasLower p then 1 else 0) +
      (if hasUpper p then 1 else 0) + (if hasNumber p then 1 else 0) +
      (if hasSpecial p then 1 else 0)) ∧
    (∀ p, (validatePasswordStrength p).strength ≤ 5) ∧
    validatePasswordStrength ("abc") =
      ⟨false,
       ["Password must be between 6 and 128 characters",
        "Password must contain at least one uppercase letter",
        "Password must contain at least one number",
        "Password must contain at least one special character (!@#$%^&*(),.?\":\x7b\x7d|<>)"],
       1⟩ ∧
    validatePasswordStrength ("Abcdef1!") = ⟨true, [], 5⟩ := by
  refine ⟨?_, ?_, ?_, by decide, by decide⟩
  · intro p
    unfold validatePasswordStrength pwChecks
    cases lengthOK p <;> cases hasLower p <;> cases hasUpper p <;>
      cases hasNumber p <;> cases hasSpecial p <;> rfl
  · intro p
    unfold validatePasswordStrength pwChecks
    cases lengthOK p <;> cases hasLower p <;> cases hasUpper p <;>
      cases hasNumber p <;> cases hasSpecial p <;> rfl
  · intro p
    unfold validatePasswordStrength pwChecks
    cases lengthOK p <;> cases hasLower p <;> cases hasUpper p <;>
      cases hasNumber p <;> cases hasSpecial p <;> simp

/-- Claim C4: at a vendor 2xx success with no usable text (absent or empty
message content), the single-provider DeepSeek handler answers a 200
success whose output is the literal placeholder string, rather than a
failure result with a distinct empty-response error kind. -/
theorem deepseek_empty_response_placeholder :
    deepseekHandler (.ok none) 7 ("T") =
      ⟨200, some ("No response"), none, none, some ⟨7, "T"⟩⟩ ∧
    deepseekHandler (.ok (some (""))) 7 ("T") =
      ⟨200, some ("No response"), none, none, some ⟨7, "T"⟩⟩ :=
  ⟨rfl, rfl⟩

/-- Claim C7 counterexample: the validation middleware's 400 rejection and
the rate limiter's 429 rejection carry no metadata object at all, so not
every emitted response carries processingTime and timestamp. -/
theorem envelope_uniformity_counterexample :
    validateMw ⟨none, []⟩ =
      .reject ⟨400, "Validation failed", [⟨"input", "Input is required"⟩], none⟩ ∧
    (rateLimit429 generalLimiter).metadata = none ∧
    (rateLimit429 chainLimiter).metadata = none :=
  ⟨rfl, rfl, rfl⟩

/-- Claim C7 (amended): every response of the chain handler itself, success
or failure, carries metadata with processingTime and timestamp; but the
validation middleware's 400 rejection and the rate limiter's 429 rejection
carry no metadata object, so the envelope is not uniform across the whole
system. -/
theorem envelope_uniformity_amended :
    (∀ scira deepseek input t ts,
      ((chainHandler scira deepseek input t ts).1).body.metadata = some ⟨t, ts⟩) ∧
    (∀ errs, (valReject errs).metadata = none) ∧
    (∀ cfg, (rateLimit429 cfg).metadata = none) := by
  refine ⟨?_, fun _ => rfl, fun _ => rfl⟩
  intro scira deepseek input t ts
  unfold chainHandler
  split
  · rename_i e _
    cases e <;> rfl
  · split
    · rename_i e _
      cases e <;> rfl
    · rfl

/-- Claim C1 counterexample: when stage 1 fails, stage 2 is indeed never
invoked, but the emitted error does not identify the failing first stage:
neither the generic error label nor the propagated vendor details mention
the stage name (no occurrence of the letters cira, covering both Scira and
scira spellings). -/
theorem chain_fail_fast_counterexample :
    (chainHandler sciraDown stubEcho ("hello") 5 ("T")).2 = 0 ∧
    ((chainHandler sciraDown stubEcho ("hello") 5 ("T")).1).body.error =
      some ("API service error") ∧
    ((chainHandler sciraDown stubEcho ("hello") 5 ("T")).1).body.details =
      some ("upstream unavailable") ∧
    occursIn ("cira") ("API service error") = false ∧
    occursIn ("cira") ("upstream unavailable") = false := by
  refine ⟨rfl, rfl, rfl, ?_, ?_⟩ <;> decide

/-- Reduction of the chain handler once stage 1 has succeeded with s1. -/
theorem chainHandler_stage1_ok (scira deepseek : String → AxiosOutcome)
    (input : String) (t : Nat) (ts : String) (s1 : String)
    (h : callStage scira input = .ok s1) :
    chainHandler scira deepseek input t ts =
      (match callStage deepseek s1 with
       | .error e => (errResponse e t ts, 1)
       | .ok s2 =>
           (⟨200, ⟨some s2, some s1, some s2, none, none, some ⟨t, ts⟩⟩⟩, 1)) := by
  unfold chainHandler
  rw [h]

/-- Claim C1 (amended): whenever stage 1 (Scira) fails — vendor HTTP error,
network failure, or unusable 2xx body — stage 2 (DeepSeek) is never invoked
(its call count is 0) and no later stage is attempted; the response carries
an error and no chain output. The emitted error does not name the failing
stage (see the counterexample): it is the generic API-service-error label
with the vendor status and details, or a generic 500. -/
theorem chain_fail_fast (scira deepseek : String → AxiosOutcome) (input : String)
    (t : Nat) (ts : String) (e : ChainErr)
    (h : callStage scira input = .error e) :
    (chainHandler scira deepseek input t ts).2 = 0 ∧
    ((chainHandler scira deepseek input t ts).1).body.error.isSome = true ∧
    ((chainHandler scira deepseek input t ts).1).body.output = none ∧
    ((chainHandler scira deepseek input t ts).1).body.chainDeepseek = none := by
  unfold chainHandler
  rw [h]
  cases e <;> exact ⟨rfl, rfl, rfl, rfl⟩

/-- Witness for the fail-fast theorem at a concrete failing first stage. -/
theorem chain_fail_fast_witness :
    (chainHandler sciraDown stubEcho ("hello") 5 ("T")).2 = 0 ∧
    ((chainHandler sciraDown stubEcho ("hello") 5 ("T")).1).body.error.isSome = true ∧
    ((chainHandler sciraDown stubEcho ("hello") 5 ("T")).1).body.output = none ∧
    ((chainHandler sciraDown stubEcho ("hello") 5 ("T")).1).body.chainDeepseek = none :=
  chain_fail_fast sciraDown stubEcho ("hello") 5 ("T")
    (.withResponse 503 ("upstream unavailable")) rfl

/-- Claim C2: when a stage fails with a vendor HTTP error, the chain's
error response carries that stage's HTTP status code as its own status and
the vendor's error payload unchanged in the details field — whichever of
the two stages failed. -/
theorem chain_error_propagation (scira deepseek : String → AxiosOutcome)
    (input : String) (t : Nat) (ts : String) (st : Nat) (data : String) :
    (scira input = .httpError st data →
      (chainHandler scira deepseek input t ts).1.status = st ∧
      ((chainHandler scira deepseek input t ts).1).body.details = some data) ∧
    (∀ s1, callStage scira input = .ok s1 → deepseek s1 = .httpError st data →
      (chainHandler scira deepseek input t ts).1.status = st ∧
      ((chainHandler scira deepseek input t ts).1).body.details = some data) := by
  constructor
  · intro h
    unfold chainHandler callStage
    rw [h]
    exact ⟨rfl, rfl⟩
  · intro s1 h1 h2
    rw [chainHandler_stage1_ok scira deepseek input t ts s1 h1]
    unfold callStage
    rw [h2]
    exact ⟨rfl, rfl⟩

/-- Witness for error propagation at a concrete vendor HTTP failure. -/
theorem chain_error_propagation_witness :
    (chainHandler sciraDown stubEcho ("hello") 5 ("T")).1.status = 503 ∧
    ((chainHandler sciraDown stubEcho ("hello") 5 ("T")).1).body.details =
      some ("upstream unavailable") :=
  (chain_error_propagation sciraDown stubEcho ("hello") 5 ("T") 503
    ("upstream unavailable")).1 rfl

/-- Claim C3: when both stages succeed, the chain answers 200 with the
final output equal to stage 2 applied to stage 1's output, the body
carrying both stage outputs, and the output field equal to the DeepSeek
entry of the chain object. -/
theorem chain_success_composition (scira deepseek : String → AxiosOutcome)
    (input : String) (t : Nat) (ts : String) (s1 s2 : String)
    (h1 : callStage scira input = .ok s1)
    (h2 : callStage deepseek s1 = .ok s2) :
    (chainHandler scira deepseek input t ts).1 =
      ⟨200, ⟨some s2, some s1, some s2, none, none, some ⟨t, ts⟩⟩⟩ ∧
    ((chainHandler scira deepseek input t ts).1).body.output =
      ((chainHandler scira deepseek input t ts).1).body.chainDeepseek ∧
    (chainHandler scira deepseek input t ts).2 = 1 := by
  rw [chainHandler_stage1_ok scira deepseek input t ts s1 h1, h2]
  exact ⟨rfl, rfl, rfl⟩

/-- Witness for chain success: stage 1 answers X, stage 2 answers Y, so the
chain answers 200 with output Y and chain entries X and Y. -/
theorem chain_success_composition_witness :
    (chainHandler stubX stubY ("hello") 5 ("T")).1 =
      ⟨200, ⟨some ("Y"), some ("X"), some ("Y"), none, none, some ⟨5, "T"⟩⟩⟩ ∧
    ((chainHandler stubX stubY ("hello") 5 ("T")).1).body.output =
      ((chainHandler stubX stubY ("hello") 5 ("T")).1).body.chainDeepseek ∧
    (chainHandler stubX stubY ("hello") 5 ("T")).2 = 1 :=
  chain_success_composition stubX stubY ("hello") 5 ("T") ("X") ("Y") rfl rfl

/-- Reduction of the schema check when the input field is absent. -/
theorem validateInputSchema_none (b : RawBody) (hb : b.input = none) :
    validateInputSchema b = .error [⟨"input", "Input is required"⟩] := by
  unfold validateInputSchema
  rw [hb]

/-- Reduction of the schema check when the input field is the string s. -/
theorem validateInputSchema_some (s : String) (b : RawBody)
    (hb : b.input = some s) :
    validateInputSchema b =
      (if s.length = 0 then .error [⟨"input", "Input cannot be empty"⟩]
       else if 10000 < s.length then
         .error [⟨"input", "Input cannot exceed 10,000 characters"⟩]
       else .ok ⟨some s, []⟩) := by
  unfold validateInputSchema
  rw [hb]

/-- Claim C5: a body whose input is a string of 1 to 10000 characters is
accepted with control passed onward (unknown fields stripped); a body whose
input is absent, empty or longer than 10000 characters is rejected with a
400 response carrying a field error naming input, and the providers are
never invoked. -/
theorem request_validation_bounds (b : RawBody)
    (scira deepseek : String → AxiosOutcome) (t : Nat) (ts : String) :
    (∀ s, b.input = some s → 1 ≤ s.length → s.length ≤ 10000 →
      validateMw b = .proceed ⟨some s, []⟩) ∧
    ((b.input = none ∨ b.input = some "" ∨ ∃ s, b.input = some s ∧ 10000 < s.length) →
      ∃ msg, validateMw b = .reject ⟨400, "Validation failed", [⟨"input", msg⟩], none⟩ ∧
        (chainRoute scira deepseek b t ts).2.1 = 0 ∧
        (chainRoute scira deepseek b t ts).2.2 = 0) := by
  constructor
  · intro s hs h1 h2
    have hz : ¬ s.length = 0 := by omega
    have hm : ¬ 10000 < s.length := by omega
    unfold validateMw
    rw [validateInputSchema_some s b hs, if_neg hz, if_neg hm]
  · intro h
    rcases h with h | h | ⟨s, hs, hlen⟩
    · refine ⟨"Input is required", ?_, ?_, ?_⟩
      · unfold validateMw
        rw [validateInputSchema_none b h]
        rfl
      · unfold chainRoute validateMw
        rw [validateInputSchema_none b h]
      · unfold chainRoute validateMw
        rw [validateInputSchema_none b h]
    · have hz : ("" : String).length = 0 := rfl
      refine ⟨"Input cannot be empty", ?_, ?_, ?_⟩
      · unfold validateMw
        rw [validateInputSchema_some "" b h, if_pos hz]
        rfl
      · unfold chainRoute validateMw
        rw [validateInputSchema_some "" b h, if_pos hz]
      · unfold chainRoute validateMw
        rw [validateInputSchema_some "" b h, if_pos hz]
    · have hz : ¬ s.length = 0 := by omega
      refine ⟨"Input cannot exceed 10,000 characters", ?_, ?_, ?_⟩
      · unfold validateMw
        rw [validateInputSchema_some s b hs, if_neg hz, if_pos hlen]
        rfl
      · unfold chainRoute validateMw
        rw [validateInputSchema_some s b hs, if_neg hz, if_pos hlen]
      · unfold chainRoute validateMw
        rw [validateInputSchema_some s b hs, if_neg hz, if_pos hlen]

/-- Witness for the validation bounds: a 5-character input with a junk
extra field is accepted and stripped. -/
theorem request_validation_bounds_witness :
    validateMw ⟨some ("hello"), [("junk", "v")]⟩ = .proceed ⟨some ("hello"), []⟩ :=
  (request_validation_bounds ⟨some ("hello"), [("junk", "v")]⟩ stubX stubY 0 ("T")).1
    ("hello") rfl (by decide) (by decide)

/-- Claim C9: re-validating a payload that validation has already accepted
and normalized accepts again and yields the very same normalized payload,
at the schema level and at the middleware level. -/
theorem validation_idempotent (b v : RawBody)
    (h : validateInputSchema b = .ok v) :
    validateInputSchema v = .ok v ∧ validateMw v = .proceed v := by
  cases hb : b.input with
  | none =>
      rw [validateInputSchema_none b hb] at h
      cases h
  | some s =>
      rw [validateInputSchema_some s b hb] at h
      by_cases hz : s.length = 0
      · rw [if_pos hz] at h
        cases h
      · rw [if_neg hz] at h
        by_cases hm : 10000 < s.length
        · rw [if_pos hm] at h
          cases h
        · rw [if_neg hm] at h
          injection h with h'
          subst h'
          constructor
          · rw [validateInputSchema_some s ⟨some s, []⟩ rfl, if_neg hz, if_neg hm]
          · unfold validateMw
            rw [validateInputSchema_some s ⟨some s, []⟩ rfl, if_neg hz, if_neg hm]

/-- Witness for idempotence at a concrete accepted payload. -/
theorem validation_idempotent_witness :
    validateInputSchema ⟨some ("hi"), []⟩ = .ok ⟨some ("hi"), []⟩ ∧
    validateMw ⟨some ("hi"), []⟩ = .proceed ⟨some ("hi"), []⟩ :=
  validation_idempotent ⟨some ("hi"), [("a", "b")]⟩ ⟨some ("hi"), []⟩ rfl

/-- Claim C6: the fixed-window limiter state machine. Per key the counter
starts at 0; an admitted call increments it and never passes the maximum; a
call that would exceed the maximum is rejected without changing the state;
once the window has elapsed the counter and window reset and the next call
is admitted. The source tiers are auth 5, chain 10, ai 30, general 100,
each over a 15-minute window; for auth, the 6th call inside one window is
rejected and a 6th call after the window has elapsed is admitted. -/
theorem rate_limiter_window_machine (cfg : LimiterConfig) (s : RateLimitState)
    (t : Nat) :
    (freshState t).count = 0 ∧
    (∀ s', limiterAdmit cfg s t = (true, s') →
      s'.count = (resetAt cfg s t).count + 1 ∧ s'.count ≤ cfg.max) ∧
    (∀ s', limiterAdmit cfg s t = (false, s') →
      s' = resetAt cfg s t ∧ cfg.max ≤ (resetAt cfg s t).count) ∧
    (s.windowStart + cfg.windowMs ≤ t → 0 < cfg.max →
      limiterAdmit cfg s t = (true, ⟨1, t⟩)) ∧
    (authLimiter.max = 5 ∧ chainLimiter.max = 10 ∧ aiLimiter.max = 30 ∧
      generalLimiter.max = 100 ∧ authLimiter.windowMs = 900000 ∧
      chainLimiter.windowMs = 900000 ∧ aiLimiter.windowMs = 900000 ∧
      generalLimiter.windowMs = 900000) ∧
    (runCalls authLimiter (freshState 0) [0, 0, 0, 0, 0, 1]).1 =
      [true, true, true, true, true, false] ∧
    (runCalls authLimiter (freshState 0) [0, 0, 0, 0, 0, 900000]).1 =
      [true, true, true, true, true, true] := by
  refine ⟨rfl, ?_, ?_, ?_, by decide, by decide, by decide⟩
  · intro s' h
    unfold limiterAdmit at h
    by_cases hm : cfg.max ≤ (resetAt cfg s t).count
    · rw [if_pos hm] at h
      cases h
    · rw [if_neg hm] at h
      injection h with _ h2
      subst h2
      refine ⟨rfl, ?_⟩
      show (resetAt cfg s t).count + 1 ≤ cfg.max
      omega
  · intro s' h
    unfold limiterAdmit at h
    by_cases hm : cfg.max ≤ (resetAt cfg s t).count
    · rw [if_pos hm] at h
      injection h with _ h2
      exact ⟨h2.symm, hm⟩
    · rw [if_neg hm] at h
      cases h
  · intro hw hp
    unfold limiterAdmit resetAt
    rw [if_pos hw]
    have hm : ¬ cfg.max ≤ (freshState t).count := by
      show ¬ cfg.max ≤ 0
      omega
    rw [if_neg hm]
    rfl

/-- Witness for the limiter state machine: an auth-tier key saturated at 5
is admitted again once the 15-minute window has elapsed, with a reset
counter. -/
theorem rate_limiter_window_machine_witness :
    limiterAdmit authLimiter ⟨5, 0⟩ 900000 = (true, ⟨1, 900000⟩) :=
  ((rate_limiter_window_machine authLimiter ⟨5, 0⟩ 900000).2.2.2.1)
    (by decide) (by decide)

end Gateway
